import Mathlib

/-!
Verification of the booking concurrency-and-scheduling subsystem of the
tg-bot appointment-booking service, shallowly embedded from the Python
source (`services/booking_service.py`, `config.py`, `database/queries.py`).

Conventions of the embedding:
* Clock times within a day (`time` columns, stored as `"HH:MM"` strings and
  parsed with `strptime` before any comparison) are modelled as minutes from
  midnight (`Nat`).  `strptime`/`timedelta` arithmetic on such values is
  plain addition of minutes.
* Dates (`"YYYY-MM-DD"` strings, ordered lexicographically, which for this
  format agrees with chronological order) are modelled as day ordinals
  (`Nat`).
* Absolute timestamps (timezone-localised `datetime` values used by the
  scheduler) are modelled as minutes on a global timeline (`Int`), so that
  subtracting a reminder lead time can go below any fixed origin.
* The SQLite store is modelled as explicit lists of rows; a transaction is
  a pure function from the pre-state to the post-state plus the returned
  value, with `rollback` returning the pre-state unchanged.
-/

namespace TgBot

/-- config.py: `MAX_BOOKINGS_PER_USER = 3`. -/
def MAX_BOOKINGS_PER_USER : Nat := 3

/-- config.py: `WORK_HOURS_START = 7`. -/
def WORK_HOURS_START : Nat := 7

/-- config.py: `WORK_HOURS_END = 22`. -/
def WORK_HOURS_END : Nat := 22

/-- config.py: `REMINDER_HOURS_BEFORE_24H = 24`. -/
def REMINDER_HOURS_BEFORE_24H : Nat := 24

/-- config.py: `REMINDER_HOURS_BEFORE_2H = 2`. -/
def REMINDER_HOURS_BEFORE_2H : Nat := 2

/-- config.py: `REMINDER_HOURS_BEFORE_1H = 1`. -/
def REMINDER_HOURS_BEFORE_1H : Nat := 1

/-- config.py: `FEEDBACK_HOURS_AFTER = 2`. -/
def FEEDBACK_HOURS_AFTER : Nat := 2

/-- Python `d or 60` applied to the `duration_minutes` column
(`Optional[int]`): both `None` and `0` are falsy and yield `60`.
Used at booking_service.py:207 (`booking_duration or 60`) and
booking_service.py:268 (`old_booking[1] or 60`). -/
def durOr60 : Option Nat → Nat
  | none => 60
  | some d => if d = 0 then 60 else d

/-- `BookingService._check_slot_availability_in_transaction`
(booking_service.py:179-227).  `existing` is the result of
`SELECT time, duration_minutes FROM bookings WHERE date=?` and `blocked`
the result of `SELECT time FROM blocked_slots WHERE date=?`, both already
restricted to the candidate's date.  The function computes
`end = start + duration`, rejects the candidate if for some existing
booking `start < booking_end and end > booking_start` (with
`booking_end = booking_start + (booking_duration or 60)`), then rejects it
if some blocked slot's time equals the candidate's start time exactly, and
otherwise accepts. -/
def check_slot_availability_in_transaction
    (existing : List (Nat × Option Nat)) (blocked : List Nat)
    (start duration : Nat) : Bool :=
  let endTime := start + duration
  (existing.all fun b =>
    let bookingStart := b.1
    let bookingEnd := bookingStart + durOr60 b.2
    !(start < bookingEnd && endTime > bookingStart))
  && (blocked.all fun blockedTime => blockedTime != start)

/-- C1: inside the create/reschedule transaction a candidate
`[start, start+duration)` is rejected whenever it overlaps some existing
booking's half-open interval `[otherStart, otherStart+otherDuration)` in the
sense `start < otherEnd ∧ end > otherStart`; concretely, against an existing
10:00/60-minute booking a 10:30/60-minute candidate fails and an
11:00/30-minute candidate passes the overlap test. -/
theorem C1_overlap_reject :
    (∀ (existing : List (Nat × Option Nat)) (blocked : List Nat)
       (start duration : Nat),
      (∃ b ∈ existing, start < b.1 + durOr60 b.2 ∧ start + duration > b.1) →
      check_slot_availability_in_transaction existing blocked start duration
        = false)
    ∧ check_slot_availability_in_transaction [(600, some 60)] [] 630 60 = false
    ∧ check_slot_availability_in_transaction [(600, some 60)] [] 660 30 = true := by
  refine ⟨?_, by decide, by decide⟩
  intro existing blocked start duration h
  obtain ⟨b, hb, h1, h2⟩ := h
  simp only [check_slot_availability_in_transaction, Bool.and_eq_false_iff]
  left
  rw [List.all_eq_false]
  exact ⟨b, hb, by simp [h1, h2]⟩

/-- Witness for C1 at concrete inputs: the 10:30/60 candidate against the
10:00/60 booking, rejected through the general overlap implication. -/
theorem C1_overlap_reject_witness :
    check_slot_availability_in_transaction [(600, some 60)] [480] 630 60
      = false :=
  C1_overlap_reject.1 [(600, some 60)] [480] 630 60 ⟨(600, some 60), by decide⟩

/-- C3 counterexample: the transactional availability check contains no
close-of-business comparison.  A 21:30 (minute 1290) candidate of 60
minutes ends at 22:30, past the configured `WORK_HOURS_END` of 22:00
(minute 1320), yet with no existing booking and no blocked slot the check
accepts it, contradicting the claim that it is rejected. -/
theorem C3_counterexample :
    check_slot_availability_in_transaction [] [] 1290 60 = true
    ∧ WORK_HOURS_END * 60 < 1290 + 60 := by
  decide

/-- C3 amended: `_check_slot_availability_in_transaction` never rejects a
candidate for ending after the configured close of business; with no
conflicting booking and no blocked slot it accepts every candidate, even
one whose end exceeds `WORK_HOURS_END`.  (Working-hours limits are enforced
only by the slot-offering keyboard layer, not by this authoritative
check.) -/
theorem C3_amended_no_hours_check (start duration : Nat)
    (_h : WORK_HOURS_END * 60 < start + duration) :
    check_slot_availability_in_transaction [] [] start duration = true := by
  simp [check_slot_availability_in_transaction]

/-- Witness for C3 amended at the concrete 21:30/60-minute candidate. -/
theorem C3_amended_no_hours_check_witness :
    check_slot_availability_in_transaction [] [] 1290 60 = true :=
  C3_amended_no_hours_check 1290 60 (by decide)

/-- C4 counterexample: a blocked slot is not treated as a one-hour
interval.  With a blocked slot at 10:00 (minute 600), a 10:30/60-minute
candidate overlaps the interval `[600, 660)` (since `630 < 660` and
`690 > 600`) yet the check accepts it, because the code compares the
candidate's start against the blocked time for string equality only. -/
theorem C4_counterexample :
    check_slot_availability_in_transaction [] [600] 630 60 = true
    ∧ 630 < 600 + 60 ∧ 630 + 60 > 600 := by
  decide

/-- C4 amended: the check rejects a candidate against the blocked slots
only when the candidate's start time equals some blocked slot's start time
exactly (`blocked_time == time_str`); in particular, against a single
blocked slot and no bookings, rejection holds if and only if the start
times coincide — a candidate merely overlapping the blocked hour starting
elsewhere is accepted. -/
theorem C4_amended_blocked_exact_match :
    (∀ (existing : List (Nat × Option Nat)) (blocked : List Nat)
       (start duration : Nat),
      start ∈ blocked →
      check_slot_availability_in_transaction existing blocked start duration
        = false)
    ∧ (∀ (blockedTime start duration : Nat),
      check_slot_availability_in_transaction [] [blockedTime] start duration
        = false ↔ start = blockedTime) := by
  constructor
  · intro existing blocked start duration h
    simp only [check_slot_availability_in_transaction, Bool.and_eq_false_iff]
    right
    rw [List.all_eq_false]
    exact ⟨start, h, by simp⟩
  · intro blockedTime start duration
    have hred : check_slot_availability_in_transaction [] [blockedTime]
        start duration = (blockedTime != start) := by
      simp [check_slot_availability_in_transaction]
    rw [hred, bne_eq_false_iff_eq, eq_comm]

/-- Witness for C4 amended: a candidate starting exactly at a blocked time
is rejected even with an unrelated existing booking present. -/
theorem C4_amended_blocked_exact_match_witness :
    check_slot_availability_in_transaction [(100, some 30)] [600] 600 45
      = false :=
  C4_amended_blocked_exact_match.1 [(100, some 30)] [600] 600 45 (by decide)

/-- A row of the `bookings` table (queries.py:36-43):
`(id, date, time, user_id, username, created_at, service_id,
duration_minutes)` with `UNIQUE(date, time)`.  `service_id` and
`duration_minutes` are nullable columns. -/
structure BookingRow where
  id : Nat
  date : Nat
  time : Nat
  userId : Nat
  username : String
  serviceId : Option Nat
  durationMinutes : Option Nat
  createdAt : Nat
deriving DecidableEq

/-- A row of the `blocked_slots` table (queries.py:60-67), restricted to
the columns the availability check reads. -/
structure BlockedRow where
  date : Nat
  time : Nat
deriving DecidableEq

/-- The portion of the SQLite store the booking transactions touch. -/
structure DBState where
  bookings : List BookingRow
  blocked : List BlockedRow
deriving DecidableEq

/-- `SELECT time, duration_minutes FROM bookings WHERE date=?`. -/
def bookingsOn (s : DBState) (d : Nat) : List (Nat × Option Nat) :=
  (s.bookings.filter fun r => r.date = d).map fun r => (r.time, r.durationMinutes)

/-- `SELECT time FROM blocked_slots WHERE date=?`. -/
def blockedOn (s : DBState) (d : Nat) : List Nat :=
  (s.blocked.filter fun b => b.date = d).map fun b => b.time

/-- The transactional body of `BookingService.create_booking`
(booking_service.py:103-177), entered after the service has been resolved
to a non-null `(serviceId, duration)` pair.  `sRead` is the store snapshot
the in-transaction SELECTs observe; `sCommit` is the store the INSERT
lands on.  They coincide in a quiet system and differ exactly when a
concurrent writer committed a row between this transaction's reads and its
INSERT — the case in which SQLite raises `sqlite3.IntegrityError` on the
`UNIQUE(date, time)` constraint and the handler at
booking_service.py:170-173 rolls back and returns `(False, "slot_taken")`.
Steps, in source order: the user's future-booking count against
`MAX_BOOKINGS_PER_USER` (`date >= date('now')` becomes `today ≤ r.date`),
the availability check, then the INSERT of the new row. -/
def create_booking (sRead sCommit : DBState) (today : Nat)
    (date time userId : Nat) (username : String)
    (serviceId duration now newId : Nat) : DBState × Bool × String :=
  let userCount :=
    (sRead.bookings.filter fun r => r.userId == userId && today ≤ r.date).length
  if MAX_BOOKINGS_PER_USER ≤ userCount then
    (sCommit, false, "limit_exceeded")
  else if check_slot_availability_in_transaction
      (bookingsOn sRead date) (blockedOn sRead date) time duration = false then
    (sCommit, false, "slot_taken")
  else if sCommit.bookings.any fun r => r.date == date && r.time == time then
    (sCommit, false, "slot_taken")
  else
    ({ sCommit with bookings := sCommit.bookings ++
        [⟨newId, date, time, userId, username, some serviceId, some duration, now⟩] },
     true, "success")

/-- `BookingService.reschedule_booking` (booking_service.py:229-330):
look up the row by `id` and `user_id` (rollback and `False` when absent),
compute `duration = old_booking[1] or 60`, check the new slot's
availability against the current store, and on success UPDATE the row's
`date`, `time` and `created_at` in place; on an unavailable slot rollback
and return `False`.  `old_date`/`old_time` from the source signature feed
only the history record and the log line, which live outside this store.
`now` is the `now_local().isoformat()` timestamp written to `created_at`. -/
def reschedule_booking (s : DBState) (bookingId : Nat)
    (newDate newTime : Nat) (userId : Nat) (now : Nat) : DBState × Bool :=
  match s.bookings.find? fun r => r.id == bookingId && r.userId == userId with
  | none => (s, false)
  | some oldBooking =>
    let duration := durOr60 oldBooking.durationMinutes
    if check_slot_availability_in_transaction
        (bookingsOn s newDate) (blockedOn s newDate) newTime duration then
      ({ s with bookings := s.bookings.map fun r =>
          if r.id == bookingId then
            { r with date := newDate, time := newTime, createdAt := now }
          else r },
       true)
    else
      (s, false)

/-- C2: when a `create_booking` call passes the in-transaction limit and
availability checks but its INSERT hits the `UNIQUE(date, time)`
constraint because a concurrent writer already committed a row with the
same `(date, time)`, the operation rolls back — the store is returned
exactly as the commit-time state, with nothing added — and reports
`(False, "slot_taken")`, the same error code as a pre-check overlap
failure. -/
theorem C2_commit_race_slot_taken
    (sRead sCommit : DBState) (today date time userId : Nat)
    (username : String) (serviceId duration now newId : Nat)
    (hLimit : (sRead.bookings.filter fun r =>
        r.userId == userId && today ≤ r.date).length < MAX_BOOKINGS_PER_USER)
    (hAvail : check_slot_availability_in_transaction
        (bookingsOn sRead date) (blockedOn sRead date) time duration = true)
    (hDup : ∃ r ∈ sCommit.bookings, r.date = date ∧ r.time = time) :
    create_booking sRead sCommit today date time userId username
        serviceId duration now newId = (sCommit, false, "slot_taken") := by
  obtain ⟨r, hr, h1, h2⟩ := hDup
  simp only [create_booking]
  rw [if_neg (by omega), if_neg (by simp [hAvail]), if_pos]
  rw [List.any_eq_true]
  exact ⟨r, hr, by simp [h1, h2]⟩

/-- Witness for C2: an empty read snapshot, a concurrently inserted row at
the same date 20 / minute 600, and the losing writer's call returning the
untouched commit-time store with `slot_taken`. -/
theorem C2_commit_race_slot_taken_witness :
    create_booking ⟨[], []⟩ ⟨[⟨7, 20, 600, 9, "w", some 1, some 60, 0⟩], []⟩
        20 20 600 5 "u" 1 60 3 8
      = (⟨[⟨7, 20, 600, 9, "w", some 1, some 60, 0⟩], []⟩, false,
         "slot_taken") :=
  C2_commit_race_slot_taken ⟨[], []⟩
    ⟨[⟨7, 20, 600, 9, "w", some 1, some 60, 0⟩], []⟩ 20 20 600 5 "u" 1 60 3 8
    (by decide) (by decide)
    ⟨⟨7, 20, 600, 9, "w", some 1, some 60, 0⟩, by decide⟩

/-- C5: when the looked-up booking exists but the new slot fails the
availability check, `reschedule_booking` returns `false` and the whole
store — in particular the booking row with its `(date, time)` — is exactly
the pre-call store, because the check and the UPDATE share one rolled-back
transaction. -/
theorem C5_reschedule_unavailable_rollback
    (s : DBState) (bookingId newDate newTime userId now : Nat)
    (oldBooking : BookingRow)
    (hFind : (s.bookings.find? fun r => r.id == bookingId && r.userId == userId)
        = some oldBooking)
    (hUnavail : check_slot_availability_in_transaction
        (bookingsOn s newDate) (blockedOn s newDate) newTime
        (durOr60 oldBooking.durationMinutes) = false) :
    reschedule_booking s bookingId newDate newTime userId now = (s, false) := by
  unfold reschedule_booking
  rw [hFind]
  simp [hUnavail]

/-- Witness for C5: rescheduling booking 1 onto a slot that overlaps
booking 2 returns `false` with the two-row store unchanged. -/
theorem C5_reschedule_unavailable_rollback_witness :
    reschedule_booking
        ⟨[⟨1, 10, 600, 5, "a", some 1, some 60, 0⟩,
          ⟨2, 11, 600, 7, "b", some 1, some 60, 0⟩], []⟩ 1 11 630 5 50
      = (⟨[⟨1, 10, 600, 5, "a", some 1, some 60, 0⟩,
           ⟨2, 11, 600, 7, "b", some 1, some 60, 0⟩], []⟩, false) :=
  C5_reschedule_unavailable_rollback
    ⟨[⟨1, 10, 600, 5, "a", some 1, some 60, 0⟩,
      ⟨2, 11, 600, 7, "b", some 1, some 60, 0⟩], []⟩ 1 11 630 5 50
    ⟨1, 10, 600, 5, "a", some 1, some 60, 0⟩ (by decide) (by decide)

/-- C9 counterexample: a successful reschedule does not leave the creation
timestamp untouched.  Starting from a single booking with
`created_at = 100` and rescheduling it at `now = 200`, the call succeeds
and the row's `created_at` is now `200` — the UPDATE at
booking_service.py:283-287 sets `date`, `time` and `created_at`. -/
theorem C9_counterexample :
    (reschedule_booking ⟨[⟨1, 10, 600, 5, "u", some 1, some 60, 100⟩], []⟩
        1 11 600 5 200).2 = true
    ∧ ((reschedule_booking ⟨[⟨1, 10, 600, 5, "u", some 1, some 60, 100⟩], []⟩
        1 11 600 5 200).1).bookings.map (fun r => r.createdAt) = [200] := by
  decide

/-- A list relates pointwise to its image under a map whenever each
element relates to its own image. -/
theorem forall2_self_map {α : Type} (P : α → α → Prop) (f : α → α)
    (l : List α) (h : ∀ x ∈ l, P x (f x)) :
    List.Forall₂ P l (l.map f) := by
  induction l with
  | nil => exact List.Forall₂.nil
  | cons a t ih =>
    exact List.Forall₂.cons (h a (List.mem_cons_self a t))
      (ih fun x hx => h x (List.mem_cons_of_mem a hx))

/-- C9 amended: a successful `reschedule_booking` leaves the blocked-slot
table untouched and maps the booking list row-for-row: every row keeps its
`id`, `user_id`, `username`, `service_id` and `duration_minutes`; the row
whose id matches gets the new `date`, `time` and a fresh `created_at`
(the creation timestamp is rewritten, contrary to the original claim);
every other row is entirely unchanged. -/
theorem C9_amended_reschedule_frame
    (s : DBState) (bookingId newDate newTime userId now : Nat)
    (hOk : (reschedule_booking s bookingId newDate newTime userId now).2
        = true) :
    (reschedule_booking s bookingId newDate newTime userId now).1.blocked
        = s.blocked
    ∧ List.Forall₂ (fun r r' =>
        r'.id = r.id ∧ r'.userId = r.userId ∧ r'.username = r.username
        ∧ r'.serviceId = r.serviceId
        ∧ r'.durationMinutes = r.durationMinutes
        ∧ (r.id = bookingId →
            r'.date = newDate ∧ r'.time = newTime ∧ r'.createdAt = now)
        ∧ (r.id ≠ bookingId → r' = r))
      s.bookings
      (reschedule_booking s bookingId newDate newTime userId now).1.bookings := by
  cases hFind : s.bookings.find? fun r => r.id == bookingId && r.userId == userId with
  | none =>
    unfold reschedule_booking at hOk
    rw [hFind] at hOk
    simp at hOk
  | some oldBooking =>
    unfold reschedule_booking at hOk ⊢
    simp only [hFind] at hOk ⊢
    by_cases hc : check_slot_availability_in_transaction
        (bookingsOn s newDate) (blockedOn s newDate) newTime
        (durOr60 oldBooking.durationMinutes) = true
    · rw [if_pos hc]
      refine ⟨rfl, forall2_self_map _ _ s.bookings ?_⟩
      intro r _
      by_cases hid : r.id = bookingId
      · simp [hid]
      · simp [hid]
    · rw [if_neg hc] at hOk
      simp at hOk

/-- Witness for C9 amended at the concrete one-row store of the
counterexample, showing the preserved fields alongside the rewritten
ones. -/
theorem C9_amended_reschedule_frame_witness :
    (reschedule_booking ⟨[⟨1, 10, 600, 5, "u", some 1, some 60, 100⟩], []⟩
        1 11 600 5 200).1.blocked = ([] : List BlockedRow)
    ∧ List.Forall₂ (fun r r' =>
        r'.id = r.id ∧ r'.userId = r.userId ∧ r'.username = r.username
        ∧ r'.serviceId = r.serviceId
        ∧ r'.durationMinutes = r.durationMinutes
        ∧ (r.id = 1 → r'.date = 11 ∧ r'.time = 600 ∧ r'.createdAt = 200)
        ∧ (r.id ≠ 1 → r' = r))
      [⟨1, 10, 600, 5, "u", some 1, some 60, 100⟩]
      ((reschedule_booking ⟨[⟨1, 10, 600, 5, "u", some 1, some 60, 100⟩], []⟩
          1 11 600 5 200).1.bookings) :=
  C9_amended_reschedule_frame
    ⟨[⟨1, 10, 600, 5, "u", some 1, some 60, 100⟩], []⟩ 1 11 600 5 200
    (by decide)

/-- C10: a stored `duration_minutes` of NULL or 0 is read as 60 minutes:
the availability check gives such an existing booking the interval
`[otherStart, otherStart+60)` (same verdicts as an explicit 60), and a
reschedule of such a booking checks the new slot with duration 60 — its
success flag equals the availability of the new slot at 60 minutes. -/
theorem C10_null_duration_as_60 (d : Option Nat) (hd : d = none ∨ d = some 0) :
    (∀ (bs start dur : Nat) (blocked : List Nat),
      check_slot_availability_in_transaction [(bs, d)] blocked start dur
        = check_slot_availability_in_transaction [(bs, some 60)] blocked
            start dur)
    ∧ (∀ (s : DBState) (bookingId newDate newTime userId now : Nat)
        (oldBooking : BookingRow),
      (s.bookings.find? fun r => r.id == bookingId && r.userId == userId)
          = some oldBooking →
      oldBooking.durationMinutes = d →
      (reschedule_booking s bookingId newDate newTime userId now).2
        = check_slot_availability_in_transaction
            (bookingsOn s newDate) (blockedOn s newDate) newTime 60) := by
  have h60 : durOr60 d = 60 := by
    rcases hd with h | h <;> simp [h, durOr60]
  constructor
  · intro bs start dur blocked
    simp only [check_slot_availability_in_transaction, List.all_cons,
      List.all_nil, h60]
    simp [durOr60]
  · intro s bookingId newDate newTime userId now oldBooking hFind hdur
    unfold reschedule_booking
    rw [hFind]
    simp only [hdur, h60]
    cases hc : check_slot_availability_in_transaction
        (bookingsOn s newDate) (blockedOn s newDate) newTime 60 <;>
      simp [hc]

/-- Witness for C10: a NULL-duration booking at minute 600 conflicts with
a 10:30 candidate exactly as a 60-minute booking would. -/
theorem C10_null_duration_as_60_witness :
    check_slot_availability_in_transaction [(600, none)] [] 630 30
      = check_slot_availability_in_transaction [(600, some 60)] [] 630 30 :=
  (C10_null_duration_as_60 none (Or.inl rfl)).1 600 630 30 []

/-- The two job families the scheduler manages, keyed in the source by the
string ids `reminder_{booking_id}` and `feedback_{booking_id}`. -/
inductive JobKind where
  | reminder
  | feedback
deriving DecidableEq

/-- A scheduled APScheduler date-trigger job: its kind, the booking id its
string key is derived from, and its `run_date` in absolute minutes. -/
structure Job where
  kind : JobKind
  bookingId : Nat
  runDate : Int
deriving DecidableEq

/-- `BookingService._schedule_reminder` (booking_service.py:336-396), as
the list of jobs it registers for one booking.  `bookingTime` is the
localized appointment start and `now` the current time, both in absolute
minutes; `time_until_booking = bookingTime - now`.  The `if/elif/elif`
chain registers at most one reminder — lead 24h when more than 24h remain,
else 2h when more than 2h remain, else 1h when more than 1h remains, else
none — and then always registers the feedback job at
`bookingTime + FEEDBACK_HOURS_AFTER` hours.  Since the job ids are
`reminder_{id}`/`feedback_{id}` with `replace_existing=True`, the
registered set for this booking is exactly this list. -/
def schedule_reminder (bookingId : Nat) (bookingTime now : Int) : List Job :=
  let timeUntilBooking := bookingTime - now
  (if timeUntilBooking > (REMINDER_HOURS_BEFORE_24H * 60 : Int) then
    [⟨.reminder, bookingId, bookingTime - (REMINDER_HOURS_BEFORE_24H * 60 : Int)⟩]
  else if timeUntilBooking > (REMINDER_HOURS_BEFORE_2H * 60 : Int) then
    [⟨.reminder, bookingId, bookingTime - (REMINDER_HOURS_BEFORE_2H * 60 : Int)⟩]
  else if timeUntilBooking > (REMINDER_HOURS_BEFORE_1H * 60 : Int) then
    [⟨.reminder, bookingId, bookingTime - (REMINDER_HOURS_BEFORE_1H * 60 : Int)⟩]
  else [])
  ++ [⟨.feedback, bookingId, bookingTime + (FEEDBACK_HOURS_AFTER * 60 : Int)⟩]

/-- The per-booking body of `BookingService.restore_reminders`
(booking_service.py:454-530), as the list of jobs it re-registers for one
booking at startup time `now`: the 24h-lead reminder when its trigger
`bookingTime - 24h` is still in the future (no 2h/1h fallback exists
here), and the feedback job when its trigger `bookingTime + 2h` is still
in the future. -/
def restore_reminders_for_booking (bookingId : Nat)
    (bookingTime now : Int) : List Job :=
  (if bookingTime - (REMINDER_HOURS_BEFORE_24H * 60 : Int) > now then
    [⟨.reminder, bookingId, bookingTime - (REMINDER_HOURS_BEFORE_24H * 60 : Int)⟩]
  else [])
  ++ (if bookingTime + (FEEDBACK_HOURS_AFTER * 60 : Int) > now then
    [⟨.feedback, bookingId, bookingTime + (FEEDBACK_HOURS_AFTER * 60 : Int)⟩]
  else [])

/-- C6 counterexample: for a booking 3 hours (180 minutes) away, startup
recovery re-registers only the feedback job, while create-time scheduling
would also register a 2h-lead reminder — the reconstructed job set is not
the set `_schedule_reminder` would produce, so a reminder is lost. -/
theorem C6_counterexample :
    restore_reminders_for_booking 1 180 0 ≠ schedule_reminder 1 180 0 := by
  decide

/-- C6 amended: `restore_reminders` re-registers only the 24h-lead
reminder when its trigger is still in the future (it has no 2h/1h
fallback) and the feedback job when its trigger is still in the future;
consequently its per-booking job set coincides with what
`_schedule_reminder` would produce at the same moment exactly when the
booking is more than 24h away, or at most 1h away with its feedback
trigger not yet passed — for bookings between 1h and 24h away the
fallback reminder is lost, and for bookings whose feedback time has
passed the feedback job that creation would still register is dropped. -/
theorem C6_amended_restore_matches_schedule_iff (bookingId : Nat)
    (bookingTime now : Int) :
    restore_reminders_for_booking bookingId bookingTime now
        = schedule_reminder bookingId bookingTime now
      ↔ ((bookingTime - now > 1440 ∨ bookingTime - now ≤ 60)
          ∧ bookingTime - now > -120) := by
  simp only [restore_reminders_for_booking, schedule_reminder,
    REMINDER_HOURS_BEFORE_24H, REMINDER_HOURS_BEFORE_2H,
    REMINDER_HOURS_BEFORE_1H, FEEDBACK_HOURS_AFTER]
  norm_num
  split_ifs <;> simp_all <;> omega

/-- Computation rule for the derived `JobKind` equality test. -/
theorem beq_reminder_reminder : (JobKind.reminder == JobKind.reminder) = true := rfl

/-- Computation rule for the derived `JobKind` equality test. -/
theorem beq_feedback_reminder : (JobKind.feedback == JobKind.reminder) = false := rfl

/-- Computation rule for the derived `JobKind` equality test. -/
theorem beq_reminder_feedback : (JobKind.reminder == JobKind.feedback) = false := rfl

/-- Computation rule for the derived `JobKind` equality test. -/
theorem beq_feedback_feedback : (JobKind.feedback == JobKind.feedback) = true := rfl

/-- C7: per create/reschedule at most one pre-appointment reminder job is
registered: the 24h lead when its trigger is still in the future, else the
2h lead, else the 1h lead, else none at all. -/
theorem C7_single_reminder (bookingId : Nat) (bookingTime now : Int) :
    ((schedule_reminder bookingId bookingTime now).filter
        (fun j => j.kind == JobKind.reminder)).length ≤ 1
    ∧ (bookingTime - now > 1440 →
        (schedule_reminder bookingId bookingTime now).filter
            (fun j => j.kind == JobKind.reminder)
          = [⟨.reminder, bookingId, bookingTime - 1440⟩])
    ∧ (120 < bookingTime - now ∧ bookingTime - now ≤ 1440 →
        (schedule_reminder bookingId bookingTime now).filter
            (fun j => j.kind == JobKind.reminder)
          = [⟨.reminder, bookingId, bookingTime - 120⟩])
    ∧ (60 < bookingTime - now ∧ bookingTime - now ≤ 120 →
        (schedule_reminder bookingId bookingTime now).filter
            (fun j => j.kind == JobKind.reminder)
          = [⟨.reminder, bookingId, bookingTime - 60⟩])
    ∧ (bookingTime - now ≤ 60 →
        (schedule_reminder bookingId bookingTime now).filter
            (fun j => j.kind == JobKind.reminder)
          = []) := by
  simp only [schedule_reminder, REMINDER_HOURS_BEFORE_24H,
    REMINDER_HOURS_BEFORE_2H, REMINDER_HOURS_BEFORE_1H,
    FEEDBACK_HOURS_AFTER]
  norm_num
  split_ifs <;>
    simp_all [List.filter, beq_reminder_reminder, beq_feedback_reminder] <;>
    omega

/-- Witness for C7: a booking 2000 minutes ahead of `now = 0` gets exactly
the single 24h-lead reminder at minute 560. -/
theorem C7_single_reminder_witness :
    (schedule_reminder 1 2000 0).filter (fun j => j.kind == JobKind.reminder)
      = [⟨.reminder, 1, 560⟩] :=
  (C7_single_reminder 1 2000 0).2.1 (by norm_num)

/-- C8 counterexample: for a 60-minute appointment starting at absolute
minute 1000, the feedback job fires at minute 1120 — the appointment
START plus the 2-hour delay — not at the appointment end plus the delay
(1000 + 60 + 120 = 1180): `_schedule_reminder` never receives the
duration. -/
theorem C8_counterexample :
    (schedule_reminder 1 1000 0).filter (fun j => j.kind == JobKind.feedback)
        = [⟨JobKind.feedback, 1, 1120⟩]
    ∧ (1120 : Int) ≠ 1000 + 60 + 120 := by
  decide

/-- C8 amended: every create/reschedule registers exactly one feedback
job, and its trigger is the appointment's START time plus the fixed
configured delay (`FEEDBACK_HOURS_AFTER` hours), with no duration term. -/
theorem C8_amended_feedback_at_start_plus_delay (bookingId : Nat)
    (bookingTime now : Int) :
    (schedule_reminder bookingId bookingTime now).filter
        (fun j => j.kind == JobKind.feedback)
      = [⟨JobKind.feedback, bookingId,
          bookingTime + (FEEDBACK_HOURS_AFTER * 60 : Int)⟩] := by
  simp only [schedule_reminder]
  split_ifs <;>
    simp [List.filter, beq_reminder_feedback, beq_feedback_feedback]

end TgBot
